import Mathlib

/-!
Verification of the FarmVichar-ML "Krishi Sakhi" pipeline
(`krishisakhi_api`): a shallow embedding of the translation utility,
the RAG context retriever, the multimodal image analyzer, the chat
endpoint orchestration, the voice-log endpoint, and the outbound HTTP
helpers, with theorems settling the spec's testable properties.

External managed services (the Gemini generative model, the embedding
service, the FAISS nearest-neighbor search, speech transcription, the
remote farm-data backend) are modelled as oracle function parameters
returning `Except String _`: an `Except.error` value models the Python
call raising an exception, an `Except.ok` value models a normal return.
-/

namespace FarmVichar

/-! ## config.py -/

/-- `config.SUPPORTED_LANGUAGES`: dictionary of supported languages,
key = language code, value = display name. -/
def SUPPORTED_LANGUAGES : List (String × String) :=
  [("ml", "Malayalam"), ("mr", "Marathi"), ("hi", "Hindi"), ("en", "English")]

/-- Python `config.SUPPORTED_LANGUAGES.get(code, code)`: look the code up
in the dictionary, falling back to the code itself. -/
def langLookup (code : String) : String :=
  (SUPPORTED_LANGUAGES.lookup code).getD code

/-- `config.API_BASE_URL` (default value, no env override). -/
def API_BASE_URL : String := "https://farmvichardatabase.onrender.com/"

/-- Python `str.strip()`: remove leading and trailing whitespace
characters. -/
def pyStrip (s : String) : String :=
  ⟨((s.data.dropWhile Char.isWhitespace).reverse.dropWhile
      Char.isWhitespace).reverse⟩

/-- Python `str.upper()` on ASCII method names. -/
def pyUpper (s : String) : String :=
  ⟨s.data.map Char.toUpper⟩

/-! ## utils/translation_utils.py -/

/-- The instruction prompt built by `translate_text` before invoking the
generative model. -/
def translationPrompt (src dest text : String) : String :=
  "Translate the following text from " ++ langLookup src ++ " to " ++
    langLookup dest ++ ". Respond with only the translated text:\n\n" ++ text

/-- Result of one `translate_text` invocation: the returned string and the
number of external generative calls issued during the invocation. -/
structure TransResult where
  result : String
  genCalls : Nat
  deriving Repr, DecidableEq

/-- `translate_text(text, src, dest)` with the generative model
(`translation_model.generate_content` composed with `.text`) abstracted
as the oracle `gen`.  If `src == dest` the function returns the input
unchanged without consulting the oracle; otherwise it issues exactly one
oracle call and returns the trimmed response, or the sentinel
`"Translation Error"` when the call raises. -/
def translate_text (gen : String → Except String String)
    (text src dest : String) : TransResult :=
  if src = dest then
    ⟨text, 0⟩
  else
    match gen (translationPrompt src dest text) with
    | Except.ok t => ⟨pyStrip t, 1⟩
    | Except.error _ => ⟨"Translation Error", 1⟩

/-! ## utils/rag_utils.py -/

/-- Python list indexing `docs[i]` for a possibly negative `Int` index:
`docs[i]` for `0 ≤ i < len docs`, `docs[len docs + i]` for
`-len docs ≤ i < 0`, and `none` (an `IndexError`) otherwise. -/
def pyGet (docs : List String) (i : Int) : Option String :=
  if 0 ≤ i then docs.get? i.toNat
  else if i.natAbs ≤ docs.length then docs.get? (docs.length - i.natAbs)
  else none

/-- The list comprehension
`[docs[i] for i in indices if i < len(docs)]` of `rag_retrieve`:
positions failing the guard `i < len(docs)` are skipped; a position that
passes the guard but is invalid for Python indexing raises an
`IndexError`, modelled as `Except.error`. -/
def gatherDocs (docs : List String) : List Int → Except String (List String)
  | [] => Except.ok []
  | i :: rest =>
    if i < (docs.length : Int) then
      match pyGet docs i with
      | some d => do
        let ds ← gatherDocs docs rest
        pure (d :: ds)
      | none => Except.error "IndexError: list index out of range"
    else gatherDocs docs rest

/-- The fixed error string returned by `rag_retrieve` when anything inside
its `try` block raises. -/
def ragErrorString : String := "Error: Could not retrieve relevant context."

/-- `rag_retrieve(query, index, docs, k)` with the embedding call
(`embed_texts`, which re-raises its own failures) abstracted as `embed`
and the FAISS `index.search` (returning the row `indices[0]`) abstracted
as `search`.  Surviving documents are joined with the separator
`"\n---\n"`; any raised exception is caught and converted to
`ragErrorString`. -/
def rag_retrieve {α : Type} (embed : List String → Except String α)
    (search : α → Nat → Except String (List Int))
    (query : String) (docs : List String) (k : Nat := 3) : String :=
  match (do
      let qe ← embed [query]
      let idxs ← search qe k
      gatherDocs docs idxs : Except String (List String)) with
  | Except.ok relevant_docs => String.intercalate "\n---\n" relevant_docs
  | Except.error _ => ragErrorString

/-! ## utils/chatbot_utils.py -/

/-- The fixed instruction sent together with the decoded image by
`analyze_image_with_gemini`. -/
def imagePrompt : String :=
  "Analyze this image from a farm. Describe crop health, visible pests, diseases, or soil conditions. Be factual, concise, and respond in English."

/-- The fixed fallback string returned by `analyze_image_with_gemini`
when anything inside its `try` block raises. -/
def imageFallback : String := "Could not analyze the uploaded image."

/-- `analyze_image_with_gemini(image_bytes)` with `PIL.Image.open`
abstracted as `decode` (producing an opaque image object of type `β`)
and the multimodal `llm_model.generate_content([prompt, image])`
composed with `.text` abstracted as `genImg`.  The response is trimmed;
any raised exception is caught and converted to `imageFallback`. -/
def analyze_image_with_gemini {β : Type} (decode : List Nat → Except String β)
    (genImg : String → β → Except String String)
    (image_bytes : List Nat) : String :=
  match (do
      let image ← decode image_bytes
      let t ← genImg imagePrompt image
      pure (pyStrip t) : Except String String) with
  | Except.ok t => t
  | Except.error _ => imageFallback

/-- The composite prompt assembled by `process_chat_query` from the
display-language name, the formatted profile and prediction dicts, the
image analysis, the retrieved context and the English query. -/
def chatPrompt (nativeLang profileRepr predictionsRepr imageAnalysis
    ragContext engQuery : String) : String :=
  "\n    You are \x27Krishi Sakhi\x27, an AI farming assistant. Your final response MUST be in " ++
    nativeLang ++
    ".\n    Analyze all the following information to provide a helpful and actionable solution. For every statement or recommendation you make, provide the reasoning behind it based on the user\x27s context.\n\n    Farmer\x27s Profile: " ++
    profileRepr ++
    "\n    Today\x27s Predictions: " ++ predictionsRepr ++
    "\n    Analysis of Uploaded Image: " ++ imageAnalysis ++
    "\n    Relevant Knowledge (in English): " ++ ragContext ++
    "\n    Farmer\x27s Question (translated to English): \"" ++ engQuery ++
    "\"\n\n    Based on all the above information, provide a comprehensive answer in " ++
    nativeLang ++
    ".\n    \n    The answer has to be to the point only answering the given " ++
    engQuery ++
    " question only. No extra information. Only answer the asked question and give a small to the point reasoning for the same no extra analysis. Provide everything in proper markdown.\n    "

/-- One recorded invocation of the Language Normalizer `translate_text`:
its source and destination language tags and how many external
generative calls that invocation issued. -/
structure TransCall where
  src : String
  dest : String
  external : Nat
  deriving Repr, DecidableEq

/-- Run `translate_text` and record the invocation. -/
def translateLogged (gen : String → Except String String)
    (text src dest : String) : String × TransCall :=
  let r := translate_text gen text src dest
  (r.result, ⟨src, dest, r.genCalls⟩)

/-- The bundle of external collaborators consumed by the chat pipeline:
`genT` is the translation model, `genC` the chat synthesis model, `embed`
and `search` the RAG collaborators, `decode`/`genImg` the image pipeline,
`transcribe` the speech-to-text call (errors model a raised
`HTTPException(500)`), `fetchWeather` the weather helper and
`predictOracle` the `get_dashboard_predictions` call (both total: the
latter catches every exception internally and returns a fallback dict,
modelled here by the formatted dict string the prompt interpolates). -/
structure ChatEnv (α β : Type) where
  genT : String → Except String String
  genC : String → Except String String
  embed : List String → Except String α
  search : α → Nat → Except String (List Int)
  decode : List Nat → Except String β
  genImg : String → β → Except String String
  transcribe : List Nat → String → Except String String
  fetchWeather : String → String
  predictOracle : String → String → String

/-- A user's primary farm profile as the chat endpoint consumes it:
`repr` is the formatted dict interpolated into prompts, `village` and
`preferredLanguage` are the two keys the endpoint reads with
`profile.get`. -/
structure Profile where
  repr : String
  village : Option String
  preferredLanguage : Option String

/-- `process_chat_query(query, profile, predictions, faiss_index, docs,
language, image_bytes)`: translate the query to English (recorded),
resolve the display language, optionally analyze the image, retrieve
RAG context (default `k = 3`), assemble the composite prompt and invoke
the synthesis model.  The synthesis call is not wrapped in a `try`, so
its exception propagates (`Except.error`); the recorded translation
invocations are returned alongside. -/
def process_chat_query {α β : Type} (env : ChatEnv α β)
    (query profileRepr predictionsRepr : String)
    (docs : List String) (language : String)
    (image_bytes : Option (List Nat)) :
    Except String String × List TransCall :=
  let (eng_query, c1) := translateLogged env.genT query language "en"
  let native_language_name := langLookup language
  let image_analysis :=
    match image_bytes with
    | some b => analyze_image_with_gemini env.decode env.genImg b
    | none => "No image provided."
  let rag_context := rag_retrieve env.embed env.search eng_query docs 3
  let prompt := chatPrompt native_language_name profileRepr predictionsRepr
    image_analysis rag_context eng_query
  (env.genC prompt, [c1])

/-! ## main.py — endpoint orchestration -/

/-- Python truthiness test `not user_query` on an optional string:
true for `None` and for the empty string. -/
def pyFalsy : Option String → Bool
  | none => true
  | some s => s.isEmpty

/-- `schemas.ChatResponse`. -/
structure ChatResponse where
  response_text : String
  transcribed_text : Option String
  deriving Repr, DecidableEq

/-- Outcome of one FastAPI endpoint invocation: a normal response, a
raised `HTTPException(status, detail)`, or an exception the endpoint
does not catch (surfaced by the framework as an internal error). -/
inductive EndpointResult (σ : Type) where
  | ok (value : σ)
  | httpError (status : Nat) (detail : String)
  | unhandled (msg : String)
  deriving Repr, DecidableEq

/-- The part of `chat_with_assistant` after the audio branch resolved
`user_query` and `transcribed_text`: the empty-query rejection, weather
and prediction gathering, the core English pipeline, and the final
outbound translation.  `calls0` carries the Normalizer invocations
already recorded by the audio branch. -/
def chatCore {α β : Type} (env : ChatEnv α β) (docs : List String)
    (profile : Profile) (user_query : Option String)
    (language_code : String) (image_bytes : Option (List Nat))
    (transcribed : Option String) (calls0 : List TransCall) :
    EndpointResult ChatResponse × List TransCall :=
  if pyFalsy user_query then
    (EndpointResult.httpError 400 "No query provided.", calls0)
  else
    let q := user_query.getD ""
    let weather := env.fetchWeather (profile.village.getD "")
    let predictions := env.predictOracle profile.repr weather
    let (eng?, calls1) :=
      process_chat_query env q profile.repr predictions docs "en" image_bytes
    match eng? with
    | Except.error e => (EndpointResult.unhandled e, calls0 ++ calls1)
    | Except.ok english_response =>
      let (final_response_text, c2) :=
        translateLogged env.genT english_response "en" language_code
      (EndpointResult.ok ⟨final_response_text, transcribed⟩,
        calls0 ++ calls1 ++ [c2])

/-- The `/chat/{user_id}` endpoint `chat_with_assistant`: reject with 404
when the profile lookup found nothing; on audio input transcribe (a
raised transcription error becomes `HTTPException(500)`) and translate
the transcript to English; reject with 400 when no query resulted; then
run the core pipeline in English and translate the answer into
`language_code`.  Alongside the endpoint outcome, the recorded list of
Language Normalizer (`translate_text`) invocations is returned. -/
def chat_with_assistant {α β : Type} (env : ChatEnv α β) (docs : List String)
    (profile? : Option Profile) (text_query : Option String)
    (language_code : String) (image_bytes : Option (List Nat))
    (audio_bytes : Option (List Nat)) :
    EndpointResult ChatResponse × List TransCall :=
  match profile? with
  | none => (EndpointResult.httpError 404 "User profile not found.", [])
  | some profile =>
    let source_language := profile.preferredLanguage.getD "en"
    match audio_bytes with
    | some ab =>
      match env.transcribe ab source_language with
      | Except.error e =>
        (EndpointResult.httpError 500 ("Failed to transcribe audio: " ++ e), [])
      | Except.ok transcribed =>
        let (uq, c0) := translateLogged env.genT transcribed source_language "en"
        chatCore env docs profile (some uq) language_code image_bytes
          (some transcribed) [c0]
    | none =>
      chatCore env docs profile text_query language_code image_bytes none []

/-- The intermediate English answer produced by the synthesis stage on
the text-query path, when the chat model behaves as the total function
`g`: the image slot holds the fixed marker, the retrieved context comes
from `rag_retrieve` on the raw query (the inbound en→en normalization is
an identity), and predictions come from the dashboard oracle. -/
def englishAnswer {α β : Type} (env : ChatEnv α β) (docs : List String)
    (p : Profile) (q : String) (g : String → String) : String :=
  g (chatPrompt (langLookup "en") p.repr
      (env.predictOracle p.repr (env.fetchWeather (p.village.getD "")))
      "No image provided."
      (rag_retrieve env.embed env.search q docs 3) q)

/-! ## main.py — structured voice log -/

/-- The dict built by `generate_structured_log(transcribed_text,
farm_id)`: a fixed `activityType` of `"general"`, the transcript as
description, a zero geo-location, no id, and the current UTC timestamp.
No generative call is made and no `details` key is produced. -/
structure ApiLog where
  farmId : String
  activityType : String
  description : String
  geoLat : Int
  geoLng : Int
  id : Option String
  timestamp : String
  deriving Repr, DecidableEq

/-- `generate_structured_log(transcribed_text, farm_id)`; `now` is the
ISO-8601 UTC timestamp `datetime.now(timezone.utc)` produced. -/
def generate_structured_log (transcribed_text farm_id : String)
    (now : String) : ApiLog :=
  ⟨farm_id, "general", transcribed_text, 0, 0, none, now⟩

/-- `schemas.LogEntry`; the free-form `details` dict is modelled as an
association list. -/
structure LogEntry where
  notes : String
  log_type : Option String
  date : Option String
  crop_name : Option String
  summary : Option String
  details : Option (List (String × String))
  deriving Repr, DecidableEq

/-- `schemas.VoiceLogResponse`. -/
structure VoiceLogResponse where
  transcribed_text : String
  structured_log : LogEntry
  deriving Repr, DecidableEq

/-- Outcome of the `/logs/voice/{farm_id}` endpoint: a skip dict
`{"status": "skipped", "reason": ...}`, a raised `HTTPException`, or the
structured response. -/
inductive VoiceLogResult where
  | skipped (reason : String)
  | httpError (status : Nat) (detail : String)
  | ok (resp : VoiceLogResponse)
  deriving Repr, DecidableEq

/-- The request-time clock: `timestamp` is the ISO-8601 UTC instant
written into the log, `date` its `"%Y-%m-%d"` calendar date (the value
`date_str` that `datetime.fromisoformat(...).strftime` recovers from
that same timestamp). -/
structure Clock where
  timestamp : String
  date : String

/-- The `/logs/voice/{farm_id}` endpoint `create_log_from_voice`:
skip on empty audio; transcribe (a raised transcription error becomes
`HTTPException(500)`); skip on an empty transcript; build the stub
structured log; save it through the CRUD gateway (`saveLog`, `none`
modelling a failed save); and assemble the `VoiceLogResponse`, reading
`activityType` and `description` from the saved dict, defaulting the
absent `details` key to an empty dict, and deriving the date from the
timestamp. -/
def create_log_from_voice (transcribe : List Nat → String → Except String String)
    (saveLog : String → ApiLog → Option Unit) (clock : Clock)
    (farm_id : String) (audio_bytes : List Nat) (language_code : String) :
    VoiceLogResult :=
  if audio_bytes.isEmpty then
    VoiceLogResult.skipped "Empty audio file"
  else
    match transcribe audio_bytes language_code with
    | Except.error e =>
      VoiceLogResult.httpError 500 ("Failed to transcribe audio: " ++ e)
    | Except.ok transcribed_text =>
      if transcribed_text.isEmpty then
        VoiceLogResult.skipped "No transcription result"
      else
        let api_log := generate_structured_log transcribed_text farm_id
          clock.timestamp
        let api_log := { api_log with timestamp := clock.timestamp }
        match saveLog farm_id api_log with
        | none =>
          VoiceLogResult.httpError 500 "Failed to save log entry to the database."
        | some _ =>
          VoiceLogResult.ok
            ⟨transcribed_text,
              { notes := api_log.description
                log_type := some api_log.activityType
                date := some clock.date
                crop_name := none
                summary := some api_log.description
                details := some [] }⟩

/-! ## crud.py and the alerts endpoint — outbound HTTP requests -/

/-- An outbound plain-HTTP request as issued through the `requests`
library: method, full URL, and the `timeout=` argument when one is
passed. -/
structure HttpRequest where
  method : String
  url : String
  timeout : Option Nat
  deriving Repr, DecidableEq

/-- The request `crud._make_api_request(method, endpoint, ...)` issues:
both the GET and the POST branch pass `timeout=15`; any other method
raises `ValueError` before any request is made (`none`). -/
def makeApiRequest (method endpoint : String) : Option HttpRequest :=
  if pyUpper method = "GET" then
    some ⟨"GET", API_BASE_URL ++ endpoint, some 15⟩
  else if pyUpper method = "POST" then
    some ⟨"POST", API_BASE_URL ++ endpoint, some 15⟩
  else
    none

/-- The request the `/alerts/{user_id}` endpoint `get_proactive_alerts`
issues directly via `requests.get(...)`: no `timeout=` argument is
passed. -/
def alertsRequest (user_id : String) : HttpRequest :=
  ⟨"GET", API_BASE_URL ++ "/api/users/" ++ user_id ++ "/alerts/", none⟩

/-! ## Concrete instances used to witness the hypothesised theorems -/

/-- An eight-entry document list, standing for the spec scenario of an
index holding ten vectors over a document list holding eight entries. -/
def docs8 : List String :=
  ["d0", "d1", "d2", "d3", "d4", "d5", "d6", "d7"]

/-- A concrete collaborator bundle: the translation model always answers
`"utt"`, the chat model always answers `"ans"`, and the remaining
collaborators are inert. -/
def envW : ChatEnv Unit Unit where
  genT := fun _ => Except.ok "utt"
  genC := fun _ => Except.ok "ans"
  embed := fun _ => Except.error "offline"
  search := fun _ _ => Except.ok []
  decode := fun _ => Except.error "offline"
  genImg := fun _ _ => Except.error "offline"
  transcribe := fun _ _ => Except.error "offline"
  fetchWeather := fun _ => "sunny"
  predictOracle := fun _ _ => "preds"

/-- A concrete farm profile. -/
def profileW : Profile := ⟨"p-repr", none, none⟩

/-- The total function describing `envW.genC`. -/
def gW : String → String := fun _ => "ans"

/-- The total function describing `envW.genT`. -/
def trW : String → String := fun _ => "utt"

/-! ## Theorems -/

/-- C2: for every text and every language pair with `src == dest`,
`translate_text` returns the text unchanged and issues zero external
generative calls. -/
theorem translate_same_language_identity
    (gen : String → Except String String) (text lang : String) :
    translate_text gen text lang lang = ⟨text, 0⟩ := by
  simp [translate_text]

/-- C6: when `src ≠ dest` and the underlying generative call raises,
`translate_text` catches the exception and returns the sentinel string
`"Translation Error"` (after its single external call) instead of
propagating. -/
theorem translate_failure_sentinel
    (gen : String → Except String String) (text src dest msg : String)
    (hne : src ≠ dest)
    (hfail : gen (translationPrompt src dest text) = Except.error msg) :
    translate_text gen text src dest = ⟨"Translation Error", 1⟩ := by
  simp [translate_text, hne, hfail]

/-- Witness for C6 at a concrete input: translating `"hello"` from
`"hi"` to `"en"` against a failing model yields the sentinel. -/
theorem translate_failure_sentinel_witness :
    translate_text (fun _ => Except.error "boom") "hello" "hi" "en" =
      ⟨"Translation Error", 1⟩ :=
  translate_failure_sentinel (fun _ => Except.error "boom") "hello" "hi" "en"
    "boom" (by decide) rfl

/-- C5: if the embedding call or the nearest-neighbor search raises,
`rag_retrieve` returns the fixed descriptive string rather than
propagating, and that string carries the `"Error"` marker. -/
theorem rag_retrieve_failure_string {α : Type}
    (search : α → Nat → Except String (List Int)) (a : α)
    (query : String) (docs : List String) (k : Nat) (msg : String) :
    rag_retrieve (fun _ => (Except.error msg : Except String α)) search
        query docs k = ragErrorString ∧
    rag_retrieve (fun _ => Except.ok a)
        (fun _ _ => (Except.error msg : Except String (List Int)))
        query docs k = ragErrorString ∧
    ∃ rest, ragErrorString = "Error" ++ rest :=
  ⟨rfl, rfl, ": Could not retrieve relevant context.", by decide⟩

/-- C7: if image decoding or the multimodal generative call raises,
`analyze_image_with_gemini` returns the fixed fallback string and never
propagates. -/
theorem analyze_image_failure_fallback {β : Type}
    (genImg : String → β → Except String String) (b : β)
    (image_bytes : List Nat) (msg : String) :
    analyze_image_with_gemini (fun _ => (Except.error msg : Except String β))
        genImg image_bytes = imageFallback ∧
    analyze_image_with_gemini (fun _ => Except.ok b)
        (fun _ _ => (Except.error msg : Except String String))
        image_bytes = imageFallback :=
  ⟨rfl, rfl⟩

/-- Helper: on nonnegative neighbor positions the comprehension never
raises, keeps at most one document per position, and every kept document
sits at a valid position strictly below the document count. -/
lemma gatherDocs_ok_of_nonneg (docs : List String) (idxs : List Int)
    (hpos : ∀ i ∈ idxs, 0 ≤ i) :
    ∃ rd, gatherDocs docs idxs = Except.ok rd ∧ rd.length ≤ idxs.length ∧
      ∀ d ∈ rd, ∃ j : Nat, j < docs.length ∧ docs.get? j = some d ∧
        (j : Int) ∈ idxs := by
  induction idxs with
  | nil => exact ⟨[], rfl, by simp, by simp⟩
  | cons i rest ih =>
    have hi : 0 ≤ i := hpos i (by simp)
    obtain ⟨rd, hrd, hlen, hmem⟩ := ih (fun j hj => hpos j (by simp [hj]))
    by_cases hlt : i < (docs.length : Int)
    · have htoNat : i.toNat < docs.length := by omega
      have hget : docs.get? i.toNat = some (docs.get ⟨i.toNat, htoNat⟩) :=
        List.get?_eq_get htoNat
      refine ⟨docs.get ⟨i.toNat, htoNat⟩ :: rd, ?_, by simpa using hlen, ?_⟩
      · simp [gatherDocs, hlt, pyGet, hi, hget, hrd]
      · intro d hd
        rcases List.mem_cons.mp hd with hd | hd
        · exact ⟨i.toNat, htoNat, hd ▸ hget, by
            simp [Int.toNat_of_nonneg hi]⟩
        · obtain ⟨j, h1, h2, h3⟩ := hmem d hd
          exact ⟨j, h1, h2, by simp [h3]⟩
    · refine ⟨rd, ?_, Nat.le_succ_of_le hlen, ?_⟩
      · simp [gatherDocs, hlt, hrd]
      · intro d hd
        obtain ⟨j, h1, h2, h3⟩ := hmem d hd
        exact ⟨j, h1, h2, by simp [h3]⟩

/-- C1: whenever the embedding succeeds and the search returns at most
`k` nonnegative neighbor positions (as FAISS does when the index holds
at least `k` vectors), `rag_retrieve` does not raise: the comprehension
yields at most `k` documents, each at a valid position strictly below
the document count, and the returned context is exactly their join —
covering in particular an index of 10 vectors over 8 documents, where
only positions 0–7 survive. -/
theorem rag_retrieve_at_most_k {α : Type}
    (embed : List String → Except String α)
    (search : α → Nat → Except String (List Int))
    (query : String) (docs : List String) (k : Nat) (a : α)
    (idxs : List Int)
    (hemb : embed [query] = Except.ok a)
    (hsearch : search a k = Except.ok idxs)
    (hlen : idxs.length ≤ k)
    (hpos : ∀ i ∈ idxs, 0 ≤ i) :
    ∃ rd, gatherDocs docs idxs = Except.ok rd ∧
      rag_retrieve embed search query docs k =
        String.intercalate "\n---\n" rd ∧
      rd.length ≤ k ∧
      ∀ d ∈ rd, ∃ j : Nat, j < docs.length ∧ docs.get? j = some d ∧
        (j : Int) ∈ idxs := by
  obtain ⟨rd, h1, h2, h3⟩ := gatherDocs_ok_of_nonneg docs idxs hpos
  exact ⟨rd, h1, by simp [rag_retrieve, bind, Except.bind, hemb, hsearch, h1],
    Nat.le_trans h2 hlen, h3⟩

/-- Witness for C1 at the spec scenario: neighbor positions 9, 2, 5 from
a ten-vector index against the eight-entry document list — no raise, at
most three documents, only valid positions kept. -/
theorem rag_retrieve_at_most_k_witness :
    ∃ rd, gatherDocs docs8 [(9 : Int), 2, 5] = Except.ok rd ∧
      rag_retrieve (fun _ => Except.ok ())
        (fun _ _ => Except.ok [(9 : Int), 2, 5]) "stem borer" docs8 3 =
        String.intercalate "\n---\n" rd ∧
      rd.length ≤ 3 ∧
      ∀ d ∈ rd, ∃ j : Nat, j < docs8.length ∧ docs8.get? j = some d ∧
        (j : Int) ∈ [(9 : Int), 2, 5] :=
  rag_retrieve_at_most_k (fun _ => Except.ok ())
    (fun _ _ => Except.ok [(9 : Int), 2, 5]) "stem borer" docs8 3 ()
    [(9 : Int), 2, 5] rfl rfl (by decide) (by decide)

/-- C10: for a non-empty document list, the sentinel neighbor position
-1 passes the guard `i < len(docs)`, and Python indexing maps it to the
last document, so the returned context includes that document instead of
omitting the missing neighbor. -/
theorem rag_retrieve_negative_one {α : Type} (docs : List String)
    (h : docs ≠ []) (a : α) (query : String) (k : Nat) :
    ((-1 : Int) < (docs.length : Int)) ∧
    pyGet docs (-1) = some (docs.getLast h) ∧
    rag_retrieve (fun _ => Except.ok a)
      (fun _ _ => Except.ok [(-1 : Int)]) query docs k = docs.getLast h := by
  have hne : docs.length ≠ 0 := fun hc => h (List.length_eq_zero.mp hc)
  have hget : docs.get? (docs.length - 1) = some (docs.getLast h) := by
    rw [List.getLast_eq_getElem, List.get?_eq_getElem?]
    exact List.getElem?_eq_getElem _
  have hpy : pyGet docs (-1) = some (docs.getLast h) := by
    simp only [pyGet]
    rw [if_neg (by omega), if_pos (by simpa using Nat.one_le_iff_ne_zero.mpr hne)]
    exact hget
  refine ⟨by omega, hpy, ?_⟩
  simp [rag_retrieve, gatherDocs, bind, Except.bind, pure, Except.pure, hpy,
    String.intercalate, String.intercalate.go,
    show (-1 : Int) < (docs.length : Int) by omega]

/-- Witness for C10 at a concrete three-document list: the context
returned for the padded search result `[-1]` is the last document. -/
theorem rag_retrieve_negative_one_witness :
    ((-1 : Int) < (3 : Int)) ∧
    pyGet ["a", "b", "c"] (-1) = some (["a", "b", "c"].getLast (by decide)) ∧
    rag_retrieve (fun _ => Except.ok ())
      (fun _ _ => Except.ok [(-1 : Int)]) "q" ["a", "b", "c"] 3 =
      ["a", "b", "c"].getLast (by decide) := by
  have h := rag_retrieve_negative_one (α := Unit) ["a", "b", "c"]
    (by decide) () "q" 3
  simpa using h

/-- C3: on the text-query chat path with `language_code = "hi"` and no
audio, against a profile and total model oracles (`g` the chat model,
`tr` the translation model), the Language Normalizer is invoked exactly
twice — the inbound invocation targets English, the outbound one
translates the answer from English to Hindi with one external call —
and when the outbound translation changes the text, the final response
differs from the intermediate English answer. -/
theorem chat_hindi_normalizer_twice {α β : Type} (env : ChatEnv α β)
    (docs : List String) (p : Profile) (q : String) (g tr : String → String)
    (hq : q ≠ "")
    (hgC : ∀ s, env.genC s = Except.ok (g s))
    (hgT : ∀ s, env.genT s = Except.ok (tr s))
    (hne : pyStrip (tr (translationPrompt "en" "hi" (englishAnswer env docs p q g))) ≠
      englishAnswer env docs p q g) :
    chat_with_assistant env docs (some p) (some q) "hi" none none =
      (EndpointResult.ok
        ⟨pyStrip (tr (translationPrompt "en" "hi" (englishAnswer env docs p q g))),
          none⟩,
        [⟨"en", "en", 0⟩, ⟨"en", "hi", 1⟩]) ∧
    pyStrip (tr (translationPrompt "en" "hi" (englishAnswer env docs p q g))) ≠
      englishAnswer env docs p q g := by
  refine ⟨?_, hne⟩
  have hq' : pyFalsy (some q) = false := by
    have hemp : q.isEmpty = false := by
      rw [Bool.eq_false_iff]
      intro hc
      exact hq ((String.isEmpty_iff q).mp hc)
    simpa [pyFalsy] using hemp
  simp [chat_with_assistant, chatCore, hq', process_chat_query,
    translateLogged, translate_text, englishAnswer, hgC, hgT]

/-- Witness for C3 at concrete collaborators: the chat model answers
`"ans"`, the translation model answers `"utt"`; the endpoint yields
`"utt"` with exactly the two recorded Normalizer invocations. -/
theorem chat_hindi_normalizer_twice_witness :
    chat_with_assistant envW [] (some profileW) (some "How to manage stem borer in my rice crop?")
        "hi" none none =
      (EndpointResult.ok
        ⟨pyStrip (trW (translationPrompt "en" "hi"
            (englishAnswer envW [] profileW "How to manage stem borer in my rice crop?" gW))),
          none⟩,
        [⟨"en", "en", 0⟩, ⟨"en", "hi", 1⟩]) ∧
    pyStrip (trW (translationPrompt "en" "hi"
        (englishAnswer envW [] profileW "How to manage stem borer in my rice crop?" gW))) ≠
      englishAnswer envW [] profileW "How to manage stem borer in my rice crop?" gW :=
  chat_hindi_normalizer_twice envW [] profileW
    "How to manage stem borer in my rice crop?" gW trW (by decide)
    (fun _ => rfl) (fun _ => rfl) (by decide)

/-- C9: malformed or missing required input is surfaced as an explicit
rejection with a distinguishable reason: the chat endpoint raises 404
when the profile lookup fails and 400 when no query text results (absent
or empty), and the voice-log endpoint returns a skip record for empty
audio and for an empty transcript. -/
theorem missing_input_rejections {α β : Type} (env : ChatEnv α β)
    (docs : List String) (tq : Option String) (lc : String)
    (img aud : Option (List Nat)) (p : Profile)
    (transcribe : List Nat → String → Except String String)
    (saveLog : String → ApiLog → Option Unit) (clock : Clock)
    (fid lc2 : String) :
    chat_with_assistant env docs none tq lc img aud =
      (EndpointResult.httpError 404 "User profile not found.", []) ∧
    chat_with_assistant env docs (some p) none lc img none =
      (EndpointResult.httpError 400 "No query provided.", []) ∧
    chat_with_assistant env docs (some p) (some "") lc img none =
      (EndpointResult.httpError 400 "No query provided.", []) ∧
    create_log_from_voice transcribe saveLog clock fid [] lc2 =
      VoiceLogResult.skipped "Empty audio file" ∧
    create_log_from_voice (fun _ _ => Except.ok "") saveLog clock fid [0] lc2 =
      VoiceLogResult.skipped "No transcription result" := by
  have hempty : "".isEmpty = true := rfl
  refine ⟨rfl, ?_, ?_, rfl, rfl⟩ <;>
    simp [chat_with_assistant, chatCore, pyFalsy, hempty]

/-- C4: at the spec scenario (transcript stating no explicit date, farm
profile with primary crop Paddy), the voice-log endpoint emits a record
whose `log_type` is the fixed `"general"`, whose `date` is the current
date and whose `details` is an (empty) map — but whose `crop_name` is
absent: the stubbed `generate_structured_log` issues no generative
extraction, so `crop_name` is never `"Paddy"`. -/
theorem voice_log_stub_no_crop_name :
    create_log_from_voice
        (fun _ _ => Except.ok "Applied 50kg of Urea to the paddy crop today")
        (fun _ _ => some ()) ⟨"2026-10-12T00:00:00Z", "2026-10-12"⟩
        "farm1" [1] "en" =
      VoiceLogResult.ok
        ⟨"Applied 50kg of Urea to the paddy crop today",
          { notes := "Applied 50kg of Urea to the paddy crop today"
            log_type := some "general"
            date := some "2026-10-12"
            crop_name := none
            summary := some "Applied 50kg of Urea to the paddy crop today"
            details := some [] }⟩ ∧
    (some "general" ≠ (none : Option String) ∧
      (none : Option String) ≠ some "Paddy") :=
  ⟨rfl, by decide, by decide⟩

/-- C8: every request issued through the CRUD helper
`_make_api_request` carries the 15-second timeout, but the alerts
endpoint's direct `requests.get` carries none — the original claim that
every outbound plain-HTTP call is bounded fails there. -/
theorem http_timeout_policy (method endpoint : String) (r : HttpRequest)
    (h : makeApiRequest method endpoint = some r) :
    r.timeout = some 15 ∧ ∀ u : String, (alertsRequest u).timeout = none := by
  refine ⟨?_, fun _ => rfl⟩
  unfold makeApiRequest at h
  by_cases h1 : pyUpper method = "GET"
  · rw [if_pos h1] at h
    cases h
    rfl
  · rw [if_neg h1] at h
    by_cases h2 : pyUpper method = "POST"
    · rw [if_pos h2] at h
      cases h
      rfl
    · rw [if_neg h2] at h
      cases h

/-- Witness for C8's amended statement: a concrete GET through the CRUD
helper carries the 15-second timeout, while the alerts request does not. -/
theorem http_timeout_policy_witness :
    (HttpRequest.mk "GET" (API_BASE_URL ++ "/api/users/u1/farms/") (some 15)).timeout =
      some 15 ∧
    ∀ u : String, (alertsRequest u).timeout = none :=
  http_timeout_policy "GET" "/api/users/u1/farms/" _ rfl

/-- Counterexample to C8 as stated: the `/alerts/{user_id}` endpoint's
outbound `requests.get` call passes no timeout at all. -/
theorem alerts_request_unbounded :
    (alertsRequest "ramesh_123").timeout = none := rfl

end FarmVichar
